import Mathlib

/-!
# logs-bot: shallow embedding and verification

Embedding of the core decision logic of the `logs-bot` repository
(`src/main.go` and the two unnamed near-duplicate revisions
`src/unnamed/part_000` and `src/unnamed/part_001`).

Modelling conventions:
* Time is modelled as `Int`, in Unix seconds.  Go's `elapsed.Seconds() > c`
  compares a float, but for the integral thresholds used here (30, 60) that
  comparison agrees in sign and on every whole-second boundary with the
  integer comparison `now - date > c`; Go's `time.Sub` clamps on overflow,
  which preserves the sign of the difference, so the staleness verdict is
  unchanged.
* Go's zero `time.Time` (the value a missing map entry yields) is the
  instant 0001-01-01T00:00:00Z, i.e. Unix second -62135596800; a missing
  per-identity entry is `none` and is collapsed to that instant exactly
  where the Go code reads the map.
* A Go runtime panic (out-of-range index) is modelled as `none` in an
  `Option`-valued result.
* `checkLogsForPlayer` is modelled from the point the query result is in
  hand: the fetch outcome is a parameter (`Except`), the wall-clock reads
  are parameters, and the function returns the lines written to the
  connection together with the new per-identity state.  The write to the
  connection is modelled as succeeding (the write-error path of the source
  returns before the map update, which none of the verified claims probe).
-/

/-- One entry of the `logs` array of the logs.tf search response
(Go struct `logResponse`: `Date int64`, `ID int`, `Title string`). -/
structure logResponse where
  date : Int
  id : Int
  title : String
  deriving DecidableEq, Repr

/-- The parsed JSON envelope of the logs.tf search response
(Go local struct `queryResponse` in `getNewestLogForPlayer`). -/
structure queryResponse where
  logs : List logResponse
  results : Int
  success : Bool
  deriving DecidableEq, Repr

/-- The error message built by `getNewestLogForPlayer` on the
no-results branch; it embeds the raw response body. -/
def noResultsMessage (steamid body : String) : String :=
  "Failed to get log for steamid=" ++ steamid ++ ", response:\n" ++ body ++ "\n"

/-- `getNewestLogForPlayer` (identical in all three revisions), modelled
after transport and JSON decoding succeeded: `q` is the decoded envelope
and `body` the raw bytes.  The source does
`if q.Success == false || q.Results == 0 { return nil, fmt.Errorf(...) }`
and then returns `&(q.Logs[0])` with no length check; indexing an empty
slice panics, modelled as `none`. -/
def getNewestLogForPlayer (steamid body : String) (q : queryResponse) :
    Option (Except String logResponse) :=
  if q.success = false ∨ q.results = 0 then
    some (Except.error (noResultsMessage steamid body))
  else
    match q.logs with
    | [] => none
    | x :: _ => some (Except.ok x)

/-- The single line written to the IRC connection for an accepted log
(source: `fmt.Fprintf(b.conn, "PRIVMSG #"+channel+" :http://logs.tf/"+id+"\r\n")`
with `id := strconv.Itoa(res.ID)`). -/
def privmsgLine (channel : String) (id : Int) : String :=
  "PRIVMSG #" ++ channel ++ " :http://logs.tf/" ++ toString id ++ "\x0d\x0a"

/-- Unix second of Go's zero `time.Time` (0001-01-01T00:00:00Z), the value
read from `steamIDToLastTime` when the identity has no entry. -/
def goZeroTimeUnix : Int := -62135596800

/-- Outcome of one `checkLogsForPlayer` invocation for one identity:
the lines written to the connection, the identity's `steamIDToLastTime`
entry afterwards, and whether the accept path was taken. -/
structure GateResult where
  sent : List String
  newState : Option Int
  delivered : Bool
  deriving DecidableEq, Repr

/-- `checkLogsForPlayer` of revision `src/unnamed/part_001`
(staleLogThresholdInSeconds = 60).  Under the mutex it reads
`lastTime` (zero time if absent), rejects when
`elapsed.Seconds() > 60 || timestamp.Equal(lastTime)`, otherwise sends
the PRIVMSG line and stores `timestamp` (the log's own date). -/
def checkLogsForPlayer_p001 (now : Int) (fetched : Except String logResponse)
    (lastTime : Option Int) (channel : String) : GateResult :=
  match fetched with
  | Except.error _ => ⟨[], lastTime, false⟩
  | Except.ok res =>
    let timestamp := res.date
    let last := lastTime.getD goZeroTimeUnix
    let elapsed := now - timestamp
    if elapsed > 60 ∨ timestamp = last then
      ⟨[], lastTime, false⟩
    else
      ⟨[privmsgLine channel res.id], some timestamp, true⟩

/-- `checkLogsForPlayer` of `src/main.go`
(staleLogThresholdInSeconds = 30, elapsedTimeThresholdInSeconds = 60).
`nowElapsed` is the clock read for `elapsed := time.Since(tm)` (before the
lock), `nowCheck` the read for `time.Now().Sub(lastTime)` inside the
condition, and `sendNow` the read for the `time.Now()` stored into the map
after the spoiler sleep and the send.  Rejects when
`elapsed.Seconds() > 30 || time.Now().Sub(lastTime).Seconds() < 60`;
on accept it stores the delivery wall-clock time, not the log's date. -/
def checkLogsForPlayer_main (nowElapsed nowCheck sendNow : Int)
    (fetched : Except String logResponse)
    (lastTime : Option Int) (channel : String) : GateResult :=
  match fetched with
  | Except.error _ => ⟨[], lastTime, false⟩
  | Except.ok res =>
    let last := lastTime.getD goZeroTimeUnix
    let elapsed := nowElapsed - res.date
    if elapsed > 30 ∨ nowCheck - last < 60 then
      ⟨[], lastTime, false⟩
    else
      ⟨[privmsgLine channel res.id], some sendNow, true⟩

/-- `checkLogsForPlayer` of revision `src/unnamed/part_000`
(staleLogThresholdInSeconds = 30).  This revision keeps no per-identity
delivery state at all (its `steamIDToLastLogID` map is never read or
written): it sends whenever the log is not stale.  The returned value is
the list of lines written. -/
def checkLogsForPlayer_p000 (now : Int) (fetched : Except String logResponse)
    (channel : String) : List String :=
  match fetched with
  | Except.error _ => []
  | Except.ok res =>
    if now - res.date > 30 then [] else [privmsgLine channel res.id]

/-! ## Claim theorems -/

/-- Claim C1, counterexample.  The claim says the gate rejects whenever the
result's occurredAt is not strictly newer than the recorded lastDeliveredAt,
"in particular a result whose timestamp is older than lastDeliveredAt is
rejected".  In revision part_001 the dedup test is an equality test: with
lastDeliveredAt = 995, a non-stale result whose occurredAt = 990 is strictly
older, yet the gate accepts and delivers it. -/
theorem C1_counterexample :
    (990 : Int) < 995 ∧ (1000 : Int) - 990 ≤ 60 ∧
    (checkLogsForPlayer_p001 1000 (Except.ok ⟨990, 7, "x"⟩) (some 995)
        "alice").delivered = true := by
  decide

/-- Claim C1, amended: the part_001 gate rejects a non-stale result exactly
when its occurredAt is equal to the recorded lastDeliveredAt value (missing
entry = Go zero time); on equality nothing is sent and the state is
unchanged.  A strictly older timestamp different from the recorded one is
not rejected by this test. -/
theorem C1_gate_rejects_equal (now : Int) (res : logResponse)
    (lastTime : Option Int) (channel : String)
    (h : res.date = lastTime.getD goZeroTimeUnix) :
    checkLogsForPlayer_p001 now (Except.ok res) lastTime channel
      = ⟨[], lastTime, false⟩ := by
  simp [checkLogsForPlayer_p001, h]

/-- Claim C1, witness for the amended theorem. -/
theorem C1_witness :
    checkLogsForPlayer_p001 1000 (Except.ok ⟨995, 7, "x"⟩) (some 995) "alice"
      = ⟨[], some 995, false⟩ :=
  C1_gate_rejects_equal 1000 ⟨995, 7, "x"⟩ (some 995) "alice" (by decide)

/-- Claim C2: a stale result (age strictly above the revision's staleness
threshold: 60s in part_001, 30s in main.go and part_000) is rejected
regardless of the recorded per-identity state: nothing is sent and the
state entry is unchanged. -/
theorem C2_stale_rejected (res : logResponse) (lastTime : Option Int)
    (channel : String) :
    (∀ now, now - res.date > 60 →
      checkLogsForPlayer_p001 now (Except.ok res) lastTime channel
        = ⟨[], lastTime, false⟩) ∧
    (∀ nowE nowC sendNow, nowE - res.date > 30 →
      checkLogsForPlayer_main nowE nowC sendNow (Except.ok res) lastTime channel
        = ⟨[], lastTime, false⟩) ∧
    (∀ now, now - res.date > 30 →
      checkLogsForPlayer_p000 now (Except.ok res) channel = []) := by
  refine ⟨fun now h => ?_, fun nowE nowC sendNow h => ?_, fun now h => ?_⟩ <;>
    simp [checkLogsForPlayer_p001, checkLogsForPlayer_main,
      checkLogsForPlayer_p000, h]

/-- Claim C2, witness: a result 100s old is rejected by all three
revisions even though the identity has a recorded state entry. -/
theorem C2_witness :
    (checkLogsForPlayer_p001 1000 (Except.ok ⟨900, 7, "x"⟩) (some 800) "alice"
        = ⟨[], some 800, false⟩) ∧
    (checkLogsForPlayer_main 1000 1000 1015 (Except.ok ⟨900, 7, "x"⟩) (some 800)
        "alice" = ⟨[], some 800, false⟩) ∧
    (checkLogsForPlayer_p000 1000 (Except.ok ⟨900, 7, "x"⟩) "alice" = []) := by
  have h := C2_stale_rejected ⟨900, 7, "x"⟩ (some 800) "alice"
  exact ⟨h.1 1000 (by decide), h.2.1 1000 1000 1015 (by decide),
    h.2.2 1000 (by decide)⟩

/-- Claim C3: starting from fresh state, the first call with a non-stale
result of timestamp T is accepted, and the immediately following call with
an identical T is rejected.  Proved for part_001 (where the second call is
rejected whatever the clock reads, because the stored timestamp equals T)
and for main.go (where "immediately following" is formalised as: the clock
read for the window check is less than 60s past the stored delivery time).
The hypothesis 0 ≤ res.date rules out the degenerate timestamp equal to
Go's zero time, and 0 ≤ nowC1 the degenerate clock within 60s of year 1. -/
theorem C3_same_timestamp_once (res : logResponse) (channel : String)
    (now1 : Int) (h1 : now1 - res.date ≤ 60) (h0 : 0 ≤ res.date) :
    (checkLogsForPlayer_p001 now1 (Except.ok res) none channel
        = ⟨[privmsgLine channel res.id], some res.date, true⟩) ∧
    (∀ now2 res2, res2.date = res.date →
      (checkLogsForPlayer_p001 now2 (Except.ok res2) (some res.date)
          channel).delivered = false) ∧
    (∀ nowE1 nowC1 sendNow1, nowE1 - res.date ≤ 30 → 0 ≤ nowC1 →
      (checkLogsForPlayer_main nowE1 nowC1 sendNow1 (Except.ok res) none channel
          = ⟨[privmsgLine channel res.id], some sendNow1, true⟩) ∧
      ∀ nowE2 nowC2 sendNow2 res2, nowC2 - sendNow1 < 60 →
        (checkLogsForPlayer_main nowE2 nowC2 sendNow2 (Except.ok res2)
            (some sendNow1) channel).delivered = false) := by
  have hz : res.date ≠ goZeroTimeUnix := by
    intro h
    rw [h] at h0
    simp [goZeroTimeUnix] at h0
  refine ⟨?_, ?_, ?_⟩
  · simp only [checkLogsForPlayer_p001, Option.getD_none]
    rw [if_neg]
    push_neg
    exact ⟨by omega, hz⟩
  · intro now2 res2 h2
    simp [checkLogsForPlayer_p001, h2]
  · intro nowE1 nowC1 sendNow1 hE hC
    constructor
    · simp only [checkLogsForPlayer_main, Option.getD_none]
      rw [if_neg]
      push_neg
      constructor
      · omega
      · simp only [goZeroTimeUnix]
        omega
    · intro nowE2 nowC2 sendNow2 res2 hw
      simp [checkLogsForPlayer_main, hw]

/-- Claim C3, witness: timestamp 995 at clock 1000 is accepted from fresh
state by both gates, and the repeat with the same timestamp is rejected. -/
theorem C3_witness :
    (checkLogsForPlayer_p001 1000 (Except.ok ⟨995, 55, "x"⟩) none "alice"
        = ⟨[privmsgLine "alice" 55], some 995, true⟩) ∧
    ((checkLogsForPlayer_p001 1010 (Except.ok ⟨995, 56, "y"⟩) (some 995)
        "alice").delivered = false) ∧
    (checkLogsForPlayer_main 1000 1000 1015 (Except.ok ⟨995, 55, "x"⟩) none
        "alice" = ⟨[privmsgLine "alice" 55], some 1015, true⟩) ∧
    ((checkLogsForPlayer_main 1030 1030 1045 (Except.ok ⟨995, 56, "y"⟩)
        (some 1015) "alice").delivered = false) := by
  have h := C3_same_timestamp_once ⟨995, 55, "x"⟩ "alice" 1000 (by decide)
    (by decide)
  have hm := h.2.2 1000 1000 1015 (by decide) (by decide)
  exact ⟨h.1, h.2.1 1010 ⟨995, 56, "y"⟩ rfl, hm.1,
    hm.2 1030 1030 1045 ⟨995, 56, "y"⟩ (by decide)⟩

/-- Claim C4, counterexample.  The claim says a non-stale result strictly
newer than the previously accepted one is never suppressed by the dedup
state.  In main.go the state stores the delivery wall-clock time and the
gate rejects anything within 60s of it: after accepting the result dated
995 (delivery clock 1015), the non-stale result dated 1018 > 995 is
rejected at clock 1020. -/
theorem C4_counterexample :
    (checkLogsForPlayer_main 1000 1000 1015 (Except.ok ⟨995, 7, "x"⟩) none
        "alice").delivered = true ∧
    (995 : Int) < 1018 ∧ (1020 : Int) - 1018 ≤ 30 ∧
    (checkLogsForPlayer_main 1020 1020 1035 (Except.ok ⟨1018, 8, "y"⟩)
        (checkLogsForPlayer_main 1000 1000 1015 (Except.ok ⟨995, 7, "x"⟩) none
            "alice").newState
        "alice").delivered = false := by
  decide

/-- Claim C4, amended: in the timestamp-dedup revision part_001 the claim
holds as stated — after T1 is recorded, any non-stale result with
occurredAt strictly greater than T1 is accepted; in main.go a newer result
is accepted only once at least 60s have elapsed between the recorded
delivery time and the clock read of the window check. -/
theorem C4_newer_admitted (T1 : Int) (res2 : logResponse) (channel : String)
    (now2 : Int) (hgt : T1 < res2.date) (hstale : now2 - res2.date ≤ 60) :
    (checkLogsForPlayer_p001 now2 (Except.ok res2) (some T1) channel
        = ⟨[privmsgLine channel res2.id], some res2.date, true⟩) ∧
    (∀ nowE nowC sendNow s1, nowE - res2.date ≤ 30 → 60 ≤ nowC - s1 →
      (checkLogsForPlayer_main nowE nowC sendNow (Except.ok res2) (some s1)
          channel).delivered = true) := by
  constructor
  · simp only [checkLogsForPlayer_p001, Option.getD_some]
    rw [if_neg]
    push_neg
    exact ⟨by omega, by omega⟩
  · intro nowE nowC sendNow s1 hE hC
    simp only [checkLogsForPlayer_main, Option.getD_some]
    rw [if_neg]
    · push_neg
      exact ⟨by omega, by omega⟩

/-- Claim C4, witness for the amended theorem. -/
theorem C4_witness :
    (checkLogsForPlayer_p001 1020 (Except.ok ⟨1018, 8, "y"⟩) (some 995) "alice"
        = ⟨[privmsgLine "alice" 8], some 1018, true⟩) ∧
    ((checkLogsForPlayer_main 1080 1080 1095 (Except.ok ⟨1060, 8, "y"⟩)
        (some 1015) "alice").delivered = true) := by
  have h := C4_newer_admitted 995 ⟨1018, 8, "y"⟩ "alice" 1020 (by decide)
    (by decide)
  have h2 := C4_newer_admitted 995 ⟨1060, 8, "y"⟩ "alice" 1080 (by decide)
    (by decide)
  exact ⟨h.1, h2.2 1080 1080 1095 1015 (by decide) (by decide)⟩

/-- Claim C5, counterexample.  The claim says a result is returned only
when success is true and the result count is strictly positive, and that
otherwise an error is returned and "never a result".  The source tests
`q.Results == 0`, not `q.Results > 0`: on the envelope
{success:true, results:-1, logs:[one entry]} the count is not positive,
yet the code returns the first log entry and no error. -/
theorem C5_counterexample :
    ¬ ((-1 : Int) > 0) ∧
    getNewestLogForPlayer "123" "raw" ⟨[⟨5, 55, "x"⟩], -1, true⟩
      = some (Except.ok ⟨5, 55, "x"⟩) :=
  ⟨by decide, rfl⟩

/-- Claim C5, amended: the success branch is taken exactly when
success = true and the count is nonzero (not: strictly positive); on that
branch with a non-empty logs array the first element is returned, and on
the failure branch an error value whose message embeds the raw response
body is returned and no result. -/
theorem C5_fetch_behavior (steamid body : String) (q : queryResponse) :
    (q.success = false ∨ q.results = 0 →
      getNewestLogForPlayer steamid body q
        = some (Except.error (noResultsMessage steamid body))) ∧
    (∀ x rest, q.success = true → q.results ≠ 0 → q.logs = x :: rest →
      getNewestLogForPlayer steamid body q = some (Except.ok x)) ∧
    noResultsMessage steamid body
      = ("Failed to get log for steamid=" ++ steamid ++ ", response:\n")
          ++ body ++ "\n" := by
  refine ⟨fun h => ?_, fun x rest hs hr hl => ?_, ?_⟩
  · simp [getNewestLogForPlayer, h]
  · simp [getNewestLogForPlayer, hs, hr, hl]
  · simp [noResultsMessage, String.append_assoc]

/-- Claim C5, witness for the amended theorem: the no-results envelope
yields the error carrying the body, a one-element success envelope yields
its first entry. -/
theorem C5_witness :
    (getNewestLogForPlayer "123" "raw" ⟨[], 0, false⟩
        = some (Except.error (noResultsMessage "123" "raw"))) ∧
    (getNewestLogForPlayer "123" "raw" ⟨[⟨5, 55, "x"⟩], 1, true⟩
        = some (Except.ok ⟨5, 55, "x"⟩)) := by
  refine ⟨(C5_fetch_behavior "123" "raw" ⟨[], 0, false⟩).1 (by simp), ?_⟩
  exact (C5_fetch_behavior "123" "raw" ⟨[⟨5, 55, "x"⟩], 1, true⟩).2.1
    ⟨5, 55, "x"⟩ [] rfl (by decide) rfl

/-- Claim C6: when the log query fails (in particular on the no-results
envelope {success:false, results:0, logs:[]}), the polling step for that
cycle sends nothing and leaves the per-identity state exactly as it was,
in every revision. -/
theorem C6_query_error_no_effect (now nowE nowC sendNow : Int) (e : String)
    (lastTime : Option Int) (channel : String) :
    checkLogsForPlayer_p001 now (Except.error e) lastTime channel
        = ⟨[], lastTime, false⟩ ∧
    checkLogsForPlayer_main nowE nowC sendNow (Except.error e) lastTime channel
        = ⟨[], lastTime, false⟩ ∧
    checkLogsForPlayer_p000 now (Except.error e) channel = [] ∧
    ∀ steamid body, getNewestLogForPlayer steamid body ⟨[], 0, false⟩
        = some (Except.error (noResultsMessage steamid body)) := by
  exact ⟨rfl, rfl, rfl, fun steamid body => by simp [getNewestLogForPlayer]⟩

/-- Claim C7: the claim requires exactly one accept among calls racing on
the same identity and result, with an indivisible check-and-update.  In
revision part_000 the gate consults and updates no per-identity state at
all, so already two sequential polls that observe the same non-stale
result (date 95, polled at clocks 100 and 101) each send the announcement:
the delivery count is two, not one.  (In main.go and part_001 the mutex is
held from the check to the map write, so there the serialized calls do
accept at most once; part_000 is the revision that violates the claim.) -/
theorem C7_p000_delivers_twice :
    checkLogsForPlayer_p000 100 (Except.ok ⟨95, 55, "x"⟩) "alice"
        = [privmsgLine "alice" 55] ∧
    checkLogsForPlayer_p000 101 (Except.ok ⟨95, 55, "x"⟩) "alice"
        = [privmsgLine "alice" 55] := by
  decide

/-- Claim C8: whenever the gate accepts, the single line written to the
connection is exactly "PRIVMSG #" ++ destination ++ " :http://logs.tf/"
++ decimal id ++ CRLF, in both the part_001 and the main.go revision. -/
theorem C8_privmsg_format (channel : String) (now nowE nowC sendNow : Int)
    (res : logResponse) (lastTime : Option Int) :
    ((checkLogsForPlayer_p001 now (Except.ok res) lastTime channel).delivered
        = true →
      (checkLogsForPlayer_p001 now (Except.ok res) lastTime channel).sent
        = ["PRIVMSG #" ++ channel ++ " :http://logs.tf/" ++ toString res.id
            ++ "\x0d\x0a"]) ∧
    ((checkLogsForPlayer_main nowE nowC sendNow (Except.ok res) lastTime
          channel).delivered = true →
      (checkLogsForPlayer_main nowE nowC sendNow (Except.ok res) lastTime
          channel).sent
        = ["PRIVMSG #" ++ channel ++ " :http://logs.tf/" ++ toString res.id
            ++ "\x0d\x0a"]) := by
  constructor
  · intro h
    by_cases hc : now - res.date > 60 ∨ res.date = lastTime.getD goZeroTimeUnix
    · simp [checkLogsForPlayer_p001, hc] at h
    · simp [checkLogsForPlayer_p001, hc, privmsgLine]
  · intro h
    by_cases hc : nowE - res.date > 30 ∨ nowC - lastTime.getD goZeroTimeUnix < 60
    · simp [checkLogsForPlayer_main, hc] at h
    · simp [checkLogsForPlayer_main, hc, privmsgLine]

/-- Claim C8, witness: the spec scenario — mapping to destination alice,
accepted result of id 55 five seconds old — produces exactly
PRIVMSG #alice :http://logs.tf/55 followed by CRLF. -/
theorem C8_witness :
    (checkLogsForPlayer_p001 105 (Except.ok ⟨100, 55, "x"⟩) none
        "alice").delivered = true ∧
    (checkLogsForPlayer_p001 105 (Except.ok ⟨100, 55, "x"⟩) none "alice").sent
      = ["PRIVMSG #alice :http://logs.tf/55\x0d\x0a"] := by
  have h := (C8_privmsg_format "alice" 105 0 0 0 ⟨100, 55, "x"⟩ none).1
  exact ⟨by decide, by rw [h (by decide)]; decide⟩

/-- Claim C9: getNewestLogForPlayer indexes the first element of the logs
array whenever success is true and the count field is nonzero, without a
length check: on {success:true, results:1, logs:[]} the access is out of
range (a runtime panic, modelled as none), and the success branch returns
the head of the array whenever the array is in fact non-empty. -/
theorem C9_unchecked_first_index (steamid body : String) :
    getNewestLogForPlayer steamid body ⟨[], 1, true⟩ = none ∧
    (∀ q : queryResponse, q.success = true → q.results ≠ 0 → q.logs ≠ [] →
      ∃ x, getNewestLogForPlayer steamid body q = some (Except.ok x) ∧
        q.logs.head? = some x) := by
  constructor
  · simp [getNewestLogForPlayer]
  · intro q hs hr hl
    match hq : q.logs with
    | [] => exact absurd hq hl
    | x :: rest =>
      refine ⟨x, ?_, rfl⟩
      simp [getNewestLogForPlayer, hs, hr, hq]

/-- Claim C9, witness. -/
theorem C9_witness :
    getNewestLogForPlayer "123" "raw" ⟨[], 1, true⟩ = none ∧
    ∃ x, getNewestLogForPlayer "123" "raw" ⟨[⟨5, 55, "x"⟩, ⟨4, 54, "y"⟩], 2, true⟩
        = some (Except.ok x) ∧
      ([⟨5, 55, "x"⟩, ⟨4, 54, "y"⟩] : List logResponse).head? = some x :=
  ⟨(C9_unchecked_first_index "123" "raw").1,
    (C9_unchecked_first_index "123" "raw").2
      ⟨[⟨5, 55, "x"⟩, ⟨4, 54, "y"⟩], 2, true⟩ rfl (by decide) (by decide)⟩

/-- Claim C10: a result whose occurredAt lies strictly in the future of
every clock read is never rejected by the staleness test: the age is
negative, so it cannot exceed the threshold.  In part_000 such a result is
always sent; in part_001 it is accepted whenever the dedup equality does
not fire; in main.go the staleness disjunct is false, so only the
delivery-window disjunct can still reject. -/
theorem C10_future_is_fresh (now : Int) (res : logResponse)
    (lastTime : Option Int) (channel : String) (hfut : now < res.date) :
    (checkLogsForPlayer_p000 now (Except.ok res) channel
        = [privmsgLine channel res.id]) ∧
    (res.date ≠ lastTime.getD goZeroTimeUnix →
      checkLogsForPlayer_p001 now (Except.ok res) lastTime channel
        = ⟨[privmsgLine channel res.id], some res.date, true⟩) ∧
    (∀ nowC sendNow, 60 ≤ nowC - lastTime.getD goZeroTimeUnix →
      checkLogsForPlayer_main now nowC sendNow (Except.ok res) lastTime channel
        = ⟨[privmsgLine channel res.id], some sendNow, true⟩) := by
  refine ⟨?_, fun hne => ?_, fun nowC sendNow hC => ?_⟩
  · simp only [checkLogsForPlayer_p000]
    rw [if_neg (by omega)]
  · simp only [checkLogsForPlayer_p001]
    rw [if_neg]
    push_neg
    exact ⟨by omega, hne⟩
  · simp only [checkLogsForPlayer_main]
    rw [if_neg]
    push_neg
    exact ⟨by omega, by omega⟩

/-- Claim C10, witness: a result dated about 31700 years in the future is
treated as fresh by all three revisions at clock 1000. -/
theorem C10_witness :
    (checkLogsForPlayer_p000 1000 (Except.ok ⟨1000000000000, 55, "x"⟩) "alice"
        = [privmsgLine "alice" 55]) ∧
    (checkLogsForPlayer_p001 1000 (Except.ok ⟨1000000000000, 55, "x"⟩) none
        "alice" = ⟨[privmsgLine "alice" 55], some 1000000000000, true⟩) ∧
    (checkLogsForPlayer_main 1000 1000 1015 (Except.ok ⟨1000000000000, 55, "x"⟩)
        none "alice" = ⟨[privmsgLine "alice" 55], some 1015, true⟩) := by
  have h := C10_future_is_fresh 1000 ⟨1000000000000, 55, "x"⟩ none "alice"
    (by decide)
  exact ⟨h.1, h.2.1 (by decide), h.2.2 1000 1015 (by decide)⟩
